import Mathlib

/-!
Shallow embedding of the supervisor/worker orchestration engine
(`models.py`, `workers.py`, `supervisor.py`, `workflow.py`).

External collaborators (the OpenAI chat model behind `ChatOpenAI.ainvoke`)
are modelled as oracle values supplied to each operation: an invocation
either returns text (possibly text that `json.loads` rejects) or raises.
Likewise, the possibility that a stage handler's body itself raises (the
`except Exception` arms of the workflow nodes) is modelled as oracle
fields.  `process_query` itself is deterministic: `workflow.py` never
imports `WorkerState`, so its worker-state initialization (line 178)
raises `NameError` on every call and the `except` arm's two-key error
dict is the only result the program can produce.  The graph nodes
modelled here are the handler functions `graph.ainvoke` would drive —
an invocation the program never reaches.

Timestamps (`Message.timestamp`, `WorkerState.last_activity`) and the
never-read `SupervisorMemory.user_preferences` / `decision_history`
fields are omitted: no modelled operation reads them, and the only write
to `last_activity` in `coordinate_workers` assigns it to itself.
-/

namespace Assistant

/-! ## Python dict as an insertion-ordered association list -/

/-- Python `d[k] = v`: overwrite in place if the key is present, else append. -/
def dinsert {α : Type} (k : String) (v : α) (d : List (String × α)) :
    List (String × α) :=
  if d.any (fun p => p.1 = k) then
    d.map (fun p => if p.1 = k then (k, v) else p)
  else
    d ++ [(k, v)]

/-- Python `d.get(k)` / `d[k]`: value at the key, if present. -/
def dget {α : Type} (k : String) (d : List (String × α)) : Option α :=
  (d.find? (fun p => p.1 = k)).map Prod.snd

/-- Python `s` truthiness for an optional string: `None` and `""` are falsy. -/
def strTruthy : Option String → Bool
  | none => false
  | some s => s ≠ ""

/-! ## models.py -/

/-- `MessageType` enum (`models.py`). -/
inductive MessageType where
  | user_input
  | supervisor_question
  | worker_response
  | supervisor_decision
  | worker_task
deriving DecidableEq, Repr

/-- `Message` (`models.py`), minus the timestamp and metadata fields, which
no modelled operation reads. -/
structure Message where
  content : String
  sender : String
  message_type : MessageType
deriving DecidableEq, Repr

/-- The analysis JSON's nested `execution_plan` summary
(`supervisor.py`, analysis contract). -/
structure AnalysisPlanSummary where
  required_workers : List String
  task_breakdown : List String
  estimated_complexity : String
deriving DecidableEq, Repr

/-- The analysis dict produced by `Supervisor.analyze_user_query`.  The
Python value is a parsed JSON dict read elsewhere only through `.get`
with defaults (`has_sufficient_info` defaults to `False`,
`missing_information` to `[]`), so a total record with those defaults
applied is an equivalent model of any successfully parsed value. -/
structure Analysis where
  has_sufficient_info : Bool
  missing_information : List String
  follow_up_questions : List String
  execution_plan : AnalysisPlanSummary
  confidence_score : ℚ
deriving DecidableEq, Repr

/-- One entry of `execution_plan["worker_assignments"]` (`supervisor.py`). -/
structure Assignment where
  worker_id : String
  task : String
  priority : String
  dependencies : List String
deriving DecidableEq, Repr

/-- The execution-plan dict produced by `Supervisor.create_execution_plan`. -/
structure ExecutionPlan where
  worker_assignments : List Assignment
  execution_order : List String
  expected_outputs : List String
  quality_checks : List String
deriving DecidableEq, Repr

/-- Values stored in `SupervisorMemory.context_gathered` (a heterogeneous
Python dict): query text, the analysis, the plan, the worker-results dict,
and the follow-up-question list. -/
inductive CtxVal where
  | str : String → CtxVal
  | analysis : Analysis → CtxVal
  | plan : ExecutionPlan → CtxVal
  | results : List (String × String) → CtxVal
  | strList : List String → CtxVal
deriving DecidableEq, Repr

/-- `SupervisorMemory` (`models.py`). -/
structure SupervisorMemory where
  conversation_history : List Message := []
  context_gathered : List (String × CtxVal) := []
deriving DecidableEq, Repr

/-- `SupervisorMemory.add_message`: append, then keep only the last 10
entries when the length exceeds 10 (`self.conversation_history[-10:]`). -/
def SupervisorMemory.add_message (m : SupervisorMemory) (msg : Message) :
    SupervisorMemory :=
  let h := m.conversation_history ++ [msg]
  { m with conversation_history :=
      if 10 < h.length then h.drop (h.length - 10) else h }

/-- `SupervisorMemory.get_recent_context`:
`self.conversation_history[-limit:] if self.conversation_history else []`.
Python slice semantics: `[-limit:]` with `limit = 0` is `[0:]`, the whole
list; with `limit > 0` it is the last `min(limit, len)` elements. -/
def SupervisorMemory.get_recent_context (m : SupervisorMemory) (limit : Nat) :
    List Message :=
  if m.conversation_history = [] then []
  else if limit = 0 then m.conversation_history
  else m.conversation_history.drop (m.conversation_history.length - limit)

/-- `SupervisorMemory.update_context`: `self.context_gathered[key] = value`. -/
def SupervisorMemory.update_context (m : SupervisorMemory) (key : String)
    (value : CtxVal) : SupervisorMemory :=
  { m with context_gathered := dinsert key value m.context_gathered }

/-- `WorkerState` (`models.py`), minus `last_activity` (never usefully
written, never read). -/
structure WorkerState where
  worker_id : String
  current_task : Option String := none
  task_result : Option String := none
  is_busy : Bool := false
deriving DecidableEq, Repr

/-- `SystemState` (`models.py`).  `worker_states` is a Python dict keyed
by worker id. -/
structure SystemState where
  supervisor_memory : SupervisorMemory := {}
  worker_states : List (String × WorkerState) := []
  current_phase : String := "gathering_info"
  user_query : Option String := none
  final_response : Option String := none
  error_message : Option String := none
deriving DecidableEq, Repr

/-! ## Oracles for the reasoning collaborator and for stage exceptions -/

/-- Outcome of one `ChatOpenAI.ainvoke` call whose text is used directly:
either the returned text (already shaped as the value the caller extracts)
or an exception message. -/
inductive LLMCall (α : Type) where
  | ok : α → LLMCall α
  | raised : String → LLMCall α
deriving DecidableEq, Repr

/-- Outcome of one `ainvoke` call whose text is fed to `json.loads`: a
successfully parsed value, text that `json.loads` rejects, or an
exception message from the invocation itself. -/
inductive JSONCall (α : Type) where
  | ok : α → JSONCall α
  | parseFail : JSONCall α
  | raised : String → JSONCall α
deriving DecidableEq, Repr

/-- One run's worth of external outcomes for the graph's stage handlers:
the collaborator calls made by the supervisor, the per-worker dispatch
outcomes (keyed by worker id and task), and whether each workflow
node's body raises (the `except Exception` arms in `workflow.py`). -/
structure Oracles where
  analysisCall : JSONCall Analysis
  followUpCall : LLMCall String
  planCall : JSONCall ExecutionPlan
  synthesisCall : LLMCall String
  dispatchCall : String → String → LLMCall String
  analysisNodeExc : Option String := none
  gatherNodeExc : Option String := none
  executeNodeExc : Option String := none
  synthesizeNodeExc : Option String := none

/-! ## workers.py -/

/-- `WORKER_REGISTRY` keys (`workers.py`): the two statically registered
workers.  The registered workers' `process_task` bodies are single
collaborator calls whose outcome the dispatch oracle supplies. -/
def WORKER_REGISTRY : List String := ["research_worker", "creative_worker"]

/-- `execute_worker_task` (`workers.py`): an unregistered worker id
returns the not-found text without consulting any worker; otherwise the
result is the worker's `process_task` outcome. -/
def execute_worker_task (dispatch : String → String → LLMCall String)
    (worker_id task : String) : LLMCall String :=
  if worker_id ∈ WORKER_REGISTRY then dispatch worker_id task
  else .ok ("Worker " ++ worker_id ++ " not found")

/-! ## supervisor.py -/

/-- The fallback analysis returned by `analyze_user_query` when
`json.loads` fails. -/
def parseFallbackAnalysis : Analysis :=
  { has_sufficient_info := false
    missing_information := ["Unable to parse analysis"]
    follow_up_questions := ["Could you please rephrase your request?"]
    execution_plan :=
      { required_workers := [], task_breakdown := [],
        estimated_complexity := "unknown" }
    confidence_score := 0 }

/-- The fallback analysis returned by `analyze_user_query` when the
collaborator call raises `e`. -/
def errorFallbackAnalysis (e : String) : Analysis :=
  { has_sufficient_info := false
    missing_information := ["Error in analysis: " ++ e]
    follow_up_questions :=
      ["There was an error processing your request. Please try again."]
    execution_plan :=
      { required_workers := [], task_breakdown := [],
        estimated_complexity := "unknown" }
    confidence_score := 0 }

/-- `Supervisor.analyze_user_query`: the collaborator's parsed JSON on
success, else one of the two documented fallbacks. -/
def analyze_user_query (call : JSONCall Analysis) : Analysis :=
  match call with
  | .ok a => a
  | .parseFail => parseFallbackAnalysis
  | .raised e => errorFallbackAnalysis e

/-- `Supervisor.generate_follow_up_questions`: keep the lines of the
collaborator's text whose strip is non-empty and which contain a question
mark, stripped, at most 3; on a raised call, a single synthesized
question naming the missing information. -/
def generate_follow_up_questions (call : LLMCall String)
    (missing_info : List String) : List String :=
  match call with
  | .ok content =>
      (((content.splitOn "\n").filter
          (fun q => q.trim ≠ "" && q.contains '?')).map String.trim).take 3
  | .raised _ =>
      ["Could you provide more details about: " ++
        String.intercalate ", " missing_info]

/-- The fixed two-step plan `create_execution_plan` falls back to when
`json.loads` fails. -/
def parseFallbackPlan : ExecutionPlan :=
  { worker_assignments :=
      [{ worker_id := "research_worker",
         task := "Gather information related to the query",
         priority := "high", dependencies := [] },
       { worker_id := "creative_worker",
         task := "Process and present the information creatively",
         priority := "medium", dependencies := ["research_worker"] }]
    execution_order := ["research_worker", "creative_worker"]
    expected_outputs := ["Research findings", "Creative presentation"]
    quality_checks :=
      ["Verify information accuracy",
       "Ensure creative output meets requirements"] }

/-- The empty plan `create_execution_plan` falls back to when the
collaborator call raises. -/
def emptyPlan : ExecutionPlan :=
  { worker_assignments := [], execution_order := [],
    expected_outputs := [], quality_checks := [] }

/-- `Supervisor.create_execution_plan`. -/
def create_execution_plan (call : JSONCall ExecutionPlan) : ExecutionPlan :=
  match call with
  | .ok p => p
  | .parseFail => parseFallbackPlan
  | .raised _ => emptyPlan

/-- `Supervisor.synthesize_results`: the collaborator's text, or an
error-describing text when the call raises. -/
def synthesize_results (call : LLMCall String) : String :=
  match call with
  | .ok content => content
  | .raised e => "Error synthesizing results: " ++ e

/-- `Supervisor.update_memory`: append to history (with the cap) and
record context for user-input and worker-response messages. -/
def update_memory (msg : Message) (s : SystemState) : SystemState :=
  let mem := s.supervisor_memory.add_message msg
  let mem :=
    match msg.message_type with
    | .user_input => mem.update_context "last_user_input" (.str msg.content)
    | .worker_response =>
        mem.update_context ("worker_" ++ msg.sender ++ "_last_response")
          (.str msg.content)
    | _ => mem
  { s with supervisor_memory := mem }

/-- One iteration of the `coordinate_workers` loop (`supervisor.py`,
lines 187-211), threading the accumulated results dict and the mutated
`state.worker_states`. -/
def coordinate_step (dispatch : String → String → LLMCall String)
    (acc : List (String × String) × List (String × WorkerState))
    (a : Assignment) : List (String × String) × List (String × WorkerState) :=
  let results := acc.1
  let ws := acc.2
  if (dget a.worker_id ws).elim false WorkerState.is_busy then
    (dinsert a.worker_id ("Worker " ++ a.worker_id ++ " is busy") results, ws)
  else
    match execute_worker_task dispatch a.worker_id a.task with
    | .ok r =>
        let st := (dget a.worker_id ws).getD { worker_id := a.worker_id }
        (dinsert a.worker_id r results,
         dinsert a.worker_id
           { st with current_task := some a.task, task_result := some r,
                     is_busy := false } ws)
    | .raised e =>
        (dinsert a.worker_id ("Error executing task: " ++ e) results, ws)

/-- `Supervisor.coordinate_workers`: walk `plan.worker_assignments` in
list order, producing the results dict and the updated worker states.
The surrounding `try` arm that would return `{"error": ...}` is
unreachable in this typed model, where every assignment carries its
`worker_id` and `task` fields. -/
def coordinate_workers (dispatch : String → String → LLMCall String)
    (plan : ExecutionPlan) (ws : List (String × WorkerState)) :
    List (String × String) × List (String × WorkerState) :=
  plan.worker_assignments.foldl (coordinate_step dispatch) ([], ws)

/-! ## workflow.py

Each node is `try: <body> except Exception as e: state.error_message = ...`.
A node-body exception is modelled by the corresponding oracle field: when
it is `some e`, the handler yields the incoming state with only
`error_message` set, which is what the `except` arm produces (up to
whichever partial mutations preceded the raise — none of the modelled
properties depend on those). -/

/-- `LangGraphWorkflow._supervisor_analysis_node`. -/
def supervisor_analysis_node (o : Oracles) (s : SystemState) : SystemState :=
  match o.analysisNodeExc with
  | some e =>
      { s with error_message := some ("Error in supervisor analysis: " ++ e) }
  | none =>
      let userMsg : Message :=
        { content := s.user_query.getD "", sender := "user",
          message_type := .user_input }
      let s := update_memory userMsg s
      let analysis := analyze_user_query o.analysisCall
      let mem := s.supervisor_memory.update_context "last_analysis"
        (.analysis analysis)
      let s := { s with supervisor_memory := mem }
      { s with current_phase :=
          if analysis.has_sufficient_info then "processing"
          else "gathering_info" }

/-- The stored `last_analysis`, read back the way the nodes read it:
`context_gathered.get("last_analysis", {})` followed by `.get` accesses
with defaults (`has_sufficient_info` → `False`, `missing_information` →
`[]`). -/
def lastAnalysis (s : SystemState) : Analysis :=
  match dget "last_analysis" s.supervisor_memory.context_gathered with
  | some (.analysis a) => a
  | _ =>
      { has_sufficient_info := false, missing_information := [],
        follow_up_questions := [],
        execution_plan :=
          { required_workers := [], task_breakdown := [],
            estimated_complexity := "" },
        confidence_score := 0 }

/-- `LangGraphWorkflow._gather_info_node`. -/
def gather_info_node (o : Oracles) (s : SystemState) : SystemState :=
  match o.gatherNodeExc with
  | some e =>
      { s with error_message := some ("Error in gathering info: " ++ e) }
  | none =>
      let missing_info := (lastAnalysis s).missing_information
      if missing_info = [] then s
      else
        let questions := generate_follow_up_questions o.followUpCall missing_info
        let questionMsg : Message :=
          { content := String.intercalate "\n" questions,
            sender := "supervisor", message_type := .supervisor_question }
        let s := update_memory questionMsg s
        let mem := s.supervisor_memory.update_context "follow_up_questions"
          (.strList questions)
        { s with supervisor_memory := mem }

/-- `LangGraphWorkflow._execute_workers_node`. -/
def execute_workers_node (o : Oracles) (s : SystemState) : SystemState :=
  match o.executeNodeExc with
  | some e =>
      { s with error_message := some ("Error in executing workers: " ++ e) }
  | none =>
      let execution_plan := create_execution_plan o.planCall
      let mem := s.supervisor_memory.update_context "execution_plan"
        (.plan execution_plan)
      let s := { s with supervisor_memory := mem }
      let cw := coordinate_workers o.dispatchCall execution_plan s.worker_states
      let s := { s with worker_states := cw.2 }
      let mem := s.supervisor_memory.update_context "worker_results"
        (.results cw.1)
      let s := { s with supervisor_memory := mem }
      { s with current_phase := "completed" }

/-- The stored `worker_results`, read back as
`context_gathered.get("worker_results", {})`. -/
def storedWorkerResults (s : SystemState) : List (String × String) :=
  match dget "worker_results" s.supervisor_memory.context_gathered with
  | some (.results r) => r
  | _ => []

/-- `LangGraphWorkflow._synthesize_results_node`. -/
def synthesize_results_node (o : Oracles) (s : SystemState) : SystemState :=
  match o.synthesizeNodeExc with
  | some e =>
      { s with error_message := some ("Error in synthesizing results: " ++ e) }
  | none =>
      let worker_results := storedWorkerResults s
      if worker_results = [] then s
      else
        let final_response := synthesize_results o.synthesisCall
        let s := { s with final_response := some final_response }
        update_memory
          { content := final_response, sender := "supervisor",
            message_type := .supervisor_decision } s

/-- `LangGraphWorkflow._route_after_analysis`. -/
def route_after_analysis (s : SystemState) : String :=
  if strTruthy s.error_message then "end"
  else if (lastAnalysis s).has_sufficient_info then "execute_workers"
  else "gather_info"

/-- Values of the response dict built by `process_query`. -/
inductive RespVal where
  | str : String → RespVal
  | optStr : Option String → RespVal
  | nat : Nat → RespVal
  | strList : List String → RespVal
  | dict : List (String × String) → RespVal
deriving DecidableEq, Repr

/-- `LangGraphWorkflow.process_query` (`workflow.py`, lines 170-212).
`workflow.py` imports only `SystemState`, `Message` and `MessageType`
from `models` (line 4), yet line 178 evaluates
`WorkerState(worker_id=worker_id)` in the worker-state initialization
loop, whose body always runs (`WORKER_REGISTRY` has two entries).  The
name `WorkerState` is undefined in that module, so every call raises
`NameError` there — before `graph.ainvoke` is reached — and the
`except` arm at line 208 returns the two-key error dict.  The response
builder at lines 183-206 (which would add `current_phase`,
`supervisor_memory_size`, `active_workers` and the per-phase fields) is
dead code. -/
def process_query (q : String) : List (String × RespVal) :=
  [("status", .str "error"),
   ("error", .str "Workflow execution error: name 'WorkerState' is not defined")]

/-! ## Derived definitions used by the verification -/

/-- Appending a batch of messages through `add_message`. -/
def appendAll (msgs : List Message) (m : SupervisorMemory) : SupervisorMemory :=
  msgs.foldl SupervisorMemory.add_message m

/-- The per-assignment text `coordinate_workers` records: the dispatch
result on success, the caught-exception string on a raised dispatch. -/
def dispatch_outcome (dispatch : String → String → LLMCall String)
    (a : Assignment) : String :=
  match execute_worker_task dispatch a.worker_id a.task with
  | .ok r => r
  | .raised e => "Error executing task: " ++ e

/-- No worker state in the dict is marked busy. -/
def notBusy (ws : List (String × WorkerState)) : Prop :=
  ∀ p ∈ ws, p.2.is_busy = false

/-- `coordinate_step` with the "worker is busy" branch removed. -/
def coordinate_step_unchecked (dispatch : String → String → LLMCall String)
    (acc : List (String × String) × List (String × WorkerState))
    (a : Assignment) : List (String × String) × List (String × WorkerState) :=
  let results := acc.1
  let ws := acc.2
  match execute_worker_task dispatch a.worker_id a.task with
  | .ok r =>
      let st := (dget a.worker_id ws).getD { worker_id := a.worker_id }
      (dinsert a.worker_id r results,
       dinsert a.worker_id
         { st with current_task := some a.task, task_result := some r,
                   is_busy := false } ws)
  | .raised e =>
      (dinsert a.worker_id ("Error executing task: " ++ e) results, ws)

/-- `coordinate_workers` with the "worker is busy" branch removed. -/
def coordinate_workers_unchecked (dispatch : String → String → LLMCall String)
    (plan : ExecutionPlan) (ws : List (String × WorkerState)) :
    List (String × String) × List (String × WorkerState) :=
  plan.worker_assignments.foldl (coordinate_step_unchecked dispatch) ([], ws)

/-! ## Concrete inputs for witnesses and counterexamples -/

/-- A fresh memory, as `process_query` starts with. -/
def emptyMemory : SupervisorMemory := {}

/-- A memory holding a single message. -/
def mem1 : SupervisorMemory :=
  { conversation_history :=
      [{ content := "hello", sender := "user", message_type := .user_input }] }

/-- A numbered user message. -/
def msgOf (i : Nat) : Message :=
  { content := toString i, sender := "user", message_type := .user_input }

/-- Eleven distinct messages, one more than the history cap. -/
def elevenMessages : List Message := (List.range 11).map msgOf

/-- An analysis that reports sufficient information. -/
def anaTrue : Analysis :=
  { has_sufficient_info := true, missing_information := [],
    follow_up_questions := [],
    execution_plan :=
      { required_workers := ["research_worker"],
        task_breakdown := ["research"], estimated_complexity := "low" },
    confidence_score := 1 }

/-- An analysis that reports missing information. -/
def anaFalse : Analysis :=
  { anaTrue with has_sufficient_info := false,
                 missing_information := ["budget"] }

/-- A two-assignment plan over the two registered workers. -/
def planRC : ExecutionPlan :=
  { worker_assignments :=
      [{ worker_id := "research_worker", task := "research task",
         priority := "high", dependencies := [] },
       { worker_id := "creative_worker", task := "creative task",
         priority := "medium", dependencies := ["research_worker"] }],
    execution_order := ["research_worker", "creative_worker"],
    expected_outputs := [], quality_checks := [] }

/-- A dispatch in which the research worker raises and every other worker
succeeds. -/
def dispResearchFail : String → String → LLMCall String :=
  fun w t => if w = "research_worker" then .raised "network down"
             else .ok ("done " ++ t)

/-- A fresh worker-state dict for the two registered workers, both
idle — the value the initialization loop at `workflow.py` lines 176-178
is written to build (its construction in fact raises `NameError`). -/
def freshWorkerStates : List (String × WorkerState) :=
  [("research_worker", { worker_id := "research_worker" }),
   ("creative_worker", { worker_id := "creative_worker" })]

/-- A state carrying an error message. -/
def stateWithError : SystemState := { error_message := some "boom" }

/-- A state whose stored analysis reports sufficient information. -/
def stateAnaTrue : SystemState :=
  { supervisor_memory :=
      { context_gathered := [("last_analysis", .analysis anaTrue)] } }

/-- A state whose stored analysis reports missing information. -/
def stateAnaFalse : SystemState :=
  { supervisor_memory :=
      { context_gathered := [("last_analysis", .analysis anaFalse)] } }

/-! ## Dict lemmas -/

theorem dget_nil {α : Type} (k : String) : dget k ([] : List (String × α)) = none :=
  rfl

theorem dget_cons_eq {α : Type} {p : String × α} (t : List (String × α))
    {k : String} (h : p.1 = k) : dget k (p :: t) = some p.2 := by
  simp [dget, List.find?_cons_of_pos, h]

theorem dget_cons_ne {α : Type} {p : String × α} (t : List (String × α))
    {k : String} (h : ¬ p.1 = k) : dget k (p :: t) = dget k t := by
  simp [dget, List.find?_cons_of_neg, h]

theorem dget_map_overwrite {α : Type} (k k' : String) (v : α)
    (d : List (String × α)) (h : k' ≠ k) :
    dget k' (d.map (fun p => if p.1 = k then (k, v) else p)) = dget k' d := by
  induction d with
  | nil => rfl
  | cons p t ih =>
      by_cases hp : p.1 = k
      · rw [List.map_cons, if_pos hp,
          dget_cons_ne _ (by simpa using Ne.symm h),
          dget_cons_ne _ (by rw [hp]; exact fun hc => h hc.symm), ih]
      · by_cases hq : p.1 = k'
        · rw [List.map_cons, if_neg hp, dget_cons_eq _ hq, dget_cons_eq _ hq]
        · rw [List.map_cons, if_neg hp, dget_cons_ne _ hq, dget_cons_ne _ hq, ih]

theorem dget_append_single_ne {α : Type} (k k' : String) (v : α)
    (d : List (String × α)) (h : k' ≠ k) :
    dget k' (d ++ [(k, v)]) = dget k' d := by
  induction d with
  | nil =>
      rw [List.nil_append, dget_cons_ne ([] : List (String × α))
        (fun hc => h hc.symm)]
  | cons p t ih =>
      by_cases hq : p.1 = k'
      · rw [List.cons_append, dget_cons_eq _ hq, dget_cons_eq _ hq]
      · rw [List.cons_append, dget_cons_ne _ hq, dget_cons_ne _ hq, ih]

theorem dget_dinsert_self {α : Type} (k : String) (v : α)
    (d : List (String × α)) : dget k (dinsert k v d) = some v := by
  unfold dinsert
  split
  · rename_i hany
    induction d with
    | nil => simp at hany
    | cons p t ih =>
        by_cases hp : p.1 = k
        · rw [List.map_cons, if_pos hp]
          exact dget_cons_eq _ rfl
        · simp only [List.any_cons, hp, Bool.or_eq_true, decide_eq_true_eq,
            false_or] at hany
          rw [List.map_cons, if_neg hp, dget_cons_ne _ hp]
          exact ih (by simpa using hany)
  · induction d with
    | nil =>
        rw [List.nil_append]
        exact dget_cons_eq _ rfl
    | cons p t ih =>
        rename_i hany
        simp only [List.any_cons, Bool.or_eq_true, decide_eq_true_eq] at hany
        push_neg at hany
        rw [List.cons_append, dget_cons_ne _ hany.1]
        exact ih hany.2

theorem dget_dinsert_ne {α : Type} (k k' : String) (v : α)
    (d : List (String × α)) (h : k' ≠ k) :
    dget k' (dinsert k v d) = dget k' d := by
  unfold dinsert
  split
  · exact dget_map_overwrite k k' v d h
  · exact dget_append_single_ne k k' v d h

theorem any_eq_false_of_dget_none {α : Type} (k : String)
    (d : List (String × α)) (h : dget k d = none) :
    d.any (fun p => p.1 = k) = false := by
  induction d with
  | nil => rfl
  | cons p t ih =>
      by_cases hp : p.1 = k
      · rw [dget_cons_eq _ hp] at h; exact absurd h (by simp)
      · rw [dget_cons_ne _ hp] at h
        simp [hp, ih h]

theorem dinsert_fresh {α : Type} (k : String) (v : α)
    (d : List (String × α)) (h : dget k d = none) :
    dinsert k v d = d ++ [(k, v)] := by
  unfold dinsert
  rw [any_eq_false_of_dget_none k d h]
  simp

theorem keys_dinsert_fresh {α : Type} (k : String) (v : α)
    (d : List (String × α)) (h : dget k d = none) :
    (dinsert k v d).map Prod.fst = d.map Prod.fst ++ [k] := by
  rw [dinsert_fresh k v d h]; simp

/-! ## Memory lemmas (claims C2, C3) -/

/-- `add_message` always leaves the last-10 suffix of (old history ++ new
message): when the appended length is at most 10, `drop 0` is the whole
list, matching the untrimmed branch. -/
theorem add_message_history (m : SupervisorMemory) (msg : Message) :
    (m.add_message msg).conversation_history =
      (m.conversation_history ++ [msg]).drop
        ((m.conversation_history ++ [msg]).length - 10) := by
  show (if 10 < (m.conversation_history ++ [msg]).length then _ else _) = _
  split
  · rfl
  · rename_i hle
    have : (m.conversation_history ++ [msg]).length - 10 = 0 := by omega
    rw [this, List.drop_zero]

/-- Taking the last 10 of `l ++ t` only needs the last 10 of `l`. -/
theorem lastTen_append {α : Type} (l t : List α) :
    ((l.drop (l.length - 10) ++ t).drop
        ((l.drop (l.length - 10) ++ t).length - 10)) =
      ((l ++ t).drop ((l ++ t).length - 10)) := by
  by_cases hl : l.length ≤ 10
  · have : l.length - 10 = 0 := by omega
    rw [this, List.drop_zero]
  · push_neg at hl
    have hd : (l.drop (l.length - 10)).length = 10 := by
      rw [List.length_drop]; omega
    have hsplit : l.drop (l.length - 10) ++ t = (l ++ t).drop (l.length - 10) :=
      (List.drop_append_of_le_length (by omega)).symm
    rw [hsplit, List.drop_drop, List.length_drop, List.length_append]
    congr 1
    omega

/-- Any fold of `add_message` over a memory whose history already obeys
the cap leaves the last-10 suffix of the total appended sequence. -/
theorem appendAll_history (msgs : List Message) (m : SupervisorMemory)
    (hm : m.conversation_history.length ≤ 10) :
    (appendAll msgs m).conversation_history =
      (m.conversation_history ++ msgs).drop
        ((m.conversation_history ++ msgs).length - 10) := by
  induction msgs generalizing m with
  | nil =>
      have : (m.conversation_history ++ []).length - 10 = 0 := by
        simp; omega
      rw [this, List.drop_zero, List.append_nil]
      rfl
  | cons x t ih =>
      have hstep : (appendAll (x :: t) m) = appendAll t (m.add_message x) := rfl
      have hlen : (m.add_message x).conversation_history.length ≤ 10 := by
        rw [add_message_history, List.length_drop]
        omega
      rw [hstep, ih _ hlen, add_message_history, lastTen_append,
        List.append_assoc, List.singleton_append]

/-! ## Claim C2 -/

/-- C2: for every sequence of messages appended via `add_message`,
`conversation_history` never exceeds the cap of 10 at any point, and
after appending more than 10 messages it is exactly the most recent 10
appended messages in their original chronological order. -/
theorem conversation_history_cap (msgs : List Message) :
    (∀ k : Nat,
      (appendAll (msgs.take k) emptyMemory).conversation_history.length ≤ 10)
    ∧ (10 < msgs.length →
        (appendAll msgs emptyMemory).conversation_history.length = 10
        ∧ (appendAll msgs emptyMemory).conversation_history =
            msgs.drop (msgs.length - 10)) := by
  have hemp : emptyMemory.conversation_history = [] := rfl
  have hlen : emptyMemory.conversation_history.length ≤ 10 := by
    rw [hemp]; simp
  refine ⟨?_, ?_⟩
  · intro k
    rw [appendAll_history _ _ hlen, hemp, List.nil_append, List.length_drop]
    omega
  · intro h
    have he := appendAll_history msgs emptyMemory hlen
    rw [hemp, List.nil_append] at he
    refine ⟨?_, he⟩
    rw [he, List.length_drop]
    omega

/-- C2 witness: eleven appended messages leave exactly the last ten. -/
theorem conversation_history_cap_witness :
    10 < elevenMessages.length
    ∧ (appendAll elevenMessages emptyMemory).conversation_history =
        elevenMessages.drop (elevenMessages.length - 10) :=
  ⟨by decide, ((conversation_history_cap elevenMessages).2 (by decide)).2⟩

/-! ## Claim C3 -/

/-- C3 counterexample: with a one-message history, `get_recent_context 0`
returns the whole history (Python `[-0:]` is `[0:]`), not
`min 0 1 = 0` messages as the claim states. -/
theorem get_recent_context_zero_cex :
    (mem1.get_recent_context 0).length ≠
      min 0 mem1.conversation_history.length := by decide

/-- C3 (amended): for every `n ≥ 1`, `get_recent_context n` returns the
last `min n (length history)` messages in chronological order, and with
an empty history it returns the empty sequence; for `n = 0` it instead
returns the entire history. -/
theorem get_recent_context_spec (m : SupervisorMemory) (n : Nat) :
    (1 ≤ n →
      m.get_recent_context n =
        m.conversation_history.drop (m.conversation_history.length - n)
      ∧ (m.get_recent_context n).length =
          min n m.conversation_history.length)
    ∧ (m.conversation_history = [] → m.get_recent_context n = []) := by
  constructor
  · intro hn
    unfold SupervisorMemory.get_recent_context
    by_cases hemp : m.conversation_history = []
    · rw [if_pos hemp, hemp]
      constructor
      · rw [List.drop_nil]
      · simp
    · rw [if_neg hemp, if_neg (by omega)]
      refine ⟨rfl, ?_⟩
      rw [List.length_drop]
      omega
  · intro h
    unfold SupervisorMemory.get_recent_context
    rw [if_pos h]

/-- C3 witness: the amended statement evaluated on a one-message history
at `n = 1` and on the empty history at `n = 3`. -/
theorem get_recent_context_spec_witness :
    (mem1.get_recent_context 1 =
        mem1.conversation_history.drop (mem1.conversation_history.length - 1))
    ∧ emptyMemory.get_recent_context 3 = [] :=
  ⟨((get_recent_context_spec mem1 1).1 (by decide)).1,
   (get_recent_context_spec emptyMemory 3).2 rfl⟩

/-! ## Claim C5 -/

/-- C5: on unparseable collaborator text, `analyze_user_query` returns
the documented fallback (`has_sufficient_info = false`, confidence `0`,
`missing_information = ["Unable to parse analysis"]`, one fallback
question); on a raised collaborator call with cause `e` it returns the
error fallback with `missing_information = ["Error in analysis: " ++ e]`,
again with one follow-up question.  In both cases it returns instead of
raising. -/
theorem analyze_user_query_fallback (e : String) :
    ((analyze_user_query .parseFail).has_sufficient_info = false
      ∧ (analyze_user_query .parseFail).confidence_score = 0
      ∧ (analyze_user_query .parseFail).missing_information =
          ["Unable to parse analysis"]
      ∧ (analyze_user_query .parseFail).follow_up_questions.length = 1)
    ∧ ((analyze_user_query (.raised e)).has_sufficient_info = false
      ∧ (analyze_user_query (.raised e)).confidence_score = 0
      ∧ (analyze_user_query (.raised e)).missing_information =
          ["Error in analysis: " ++ e]
      ∧ (analyze_user_query (.raised e)).follow_up_questions.length = 1) :=
  ⟨⟨rfl, rfl, rfl, rfl⟩, ⟨rfl, rfl, rfl, rfl⟩⟩

/-! ## Claim C7 -/

/-- C7: dispatching any task to a worker id outside the registry returns
the deterministic not-found text (and, being a returned value rather
than a raise, never fails the caller), for every dispatch behavior. -/
theorem execute_worker_task_not_found
    (dispatch : String → String → LLMCall String) (worker_id task : String)
    (h : worker_id ∉ WORKER_REGISTRY) :
    execute_worker_task dispatch worker_id task =
      .ok ("Worker " ++ worker_id ++ " not found") := by
  unfold execute_worker_task
  rw [if_neg h]

/-- C7 witness: an unknown id is answered with the not-found text even
when every registered worker's collaborator would raise. -/
theorem execute_worker_task_not_found_witness :
    execute_worker_task (fun _ _ => .raised "collaborator failure")
        "ghost_worker" "do something" =
      .ok ("Worker " ++ "ghost_worker" ++ " not found") :=
  execute_worker_task_not_found _ _ _ (by decide)

/-! ## Worker-coordination lemmas (claims C6, C10) -/

theorem notBusy_dget {ws : List (String × WorkerState)} (hws : notBusy ws)
    (k : String) :
    (dget k ws).elim false WorkerState.is_busy = false := by
  unfold dget
  cases hfind : ws.find? (fun p => p.1 = k) with
  | none => rfl
  | some pr =>
      have hmem : pr ∈ ws := List.mem_of_find?_eq_some hfind
      simpa using hws pr hmem

theorem notBusy_dinsert {ws : List (String × WorkerState)} (hws : notBusy ws)
    {k : String} {st : WorkerState} (hb : st.is_busy = false) :
    notBusy (dinsert k st ws) := by
  unfold dinsert
  split
  · intro p hp
    obtain ⟨q, hq, rfl⟩ := List.mem_map.mp hp
    by_cases hqk : q.1 = k
    · simpa [hqk] using hb
    · simpa [hqk] using hws q hq
  · intro p hp
    rcases List.mem_append.mp hp with hin | hsingle
    · exact hws p hin
    · simp only [List.mem_singleton] at hsingle
      rw [hsingle]
      exact hb

/-- With a non-busy worker dict, one coordination step inserts the
assignment's outcome text and either updates the worker's state (to a
non-busy one) or leaves the dict unchanged. -/
theorem coordinate_step_eq (dispatch : String → String → LLMCall String)
    (res : List (String × String)) (ws : List (String × WorkerState))
    (a : Assignment)
    (hb : (dget a.worker_id ws).elim false WorkerState.is_busy = false) :
    coordinate_step dispatch (res, ws) a =
      (dinsert a.worker_id (dispatch_outcome dispatch a) res,
       match execute_worker_task dispatch a.worker_id a.task with
       | .ok r =>
           dinsert a.worker_id
             { (dget a.worker_id ws).getD { worker_id := a.worker_id } with
               current_task := some a.task, task_result := some r,
               is_busy := false } ws
       | .raised _ => ws) := by
  unfold coordinate_step dispatch_outcome
  simp only [hb, Bool.false_eq_true, if_false]
  cases hx : execute_worker_task dispatch a.worker_id a.task <;> simp [hx]

theorem coordinate_step_notBusy (dispatch : String → String → LLMCall String)
    {res : List (String × String)} {ws : List (String × WorkerState)}
    (a : Assignment) (hws : notBusy ws) :
    notBusy (coordinate_step dispatch (res, ws) a).2 := by
  rw [coordinate_step_eq dispatch res ws a (notBusy_dget hws _)]
  cases execute_worker_task dispatch a.worker_id a.task with
  | ok r => exact notBusy_dinsert hws rfl
  | raised e => exact hws

theorem coordinate_foldl_notBusy (dispatch : String → String → LLMCall String)
    (l : List Assignment) (res : List (String × String))
    (ws : List (String × WorkerState)) (hws : notBusy ws) :
    notBusy (l.foldl (coordinate_step dispatch) (res, ws)).2 := by
  induction l generalizing res ws with
  | nil => exact hws
  | cons a t ih =>
      rw [List.foldl_cons]
      have hstep : notBusy (coordinate_step dispatch (res, ws) a).2 :=
        coordinate_step_notBusy dispatch a hws
      have hres := ih (coordinate_step dispatch (res, ws) a).1
        (coordinate_step dispatch (res, ws) a).2 hstep
      rw [Prod.mk.eta] at hres
      exact hres

/-- With no busy worker, the busy check never fires: the coordination
loop equals its variant with the busy branch deleted. -/
theorem coordinate_foldl_unchecked (dispatch : String → String → LLMCall String)
    (l : List Assignment) (res : List (String × String))
    (ws : List (String × WorkerState)) (hws : notBusy ws) :
    l.foldl (coordinate_step dispatch) (res, ws) =
      l.foldl (coordinate_step_unchecked dispatch) (res, ws) := by
  induction l generalizing res ws with
  | nil => rfl
  | cons a t ih =>
      rw [List.foldl_cons, List.foldl_cons]
      have hb := notBusy_dget hws a.worker_id
      have hstep : coordinate_step dispatch (res, ws) a =
          coordinate_step_unchecked dispatch (res, ws) a := by
        unfold coordinate_step coordinate_step_unchecked
        simp only [hb, Bool.false_eq_true, if_false]
      rw [hstep]
      have hnb : notBusy (coordinate_step_unchecked dispatch (res, ws) a).2 := by
        rw [← hstep]
        exact coordinate_step_notBusy dispatch a hws
      have hres := ih (coordinate_step_unchecked dispatch (res, ws) a).1
        (coordinate_step_unchecked dispatch (res, ws) a).2 hnb
      rw [Prod.mk.eta] at hres
      exact hres

/-- Main loop invariant of `coordinate_workers` for plans whose worker
ids are pairwise distinct and fresh for the accumulated results: the
results dict gets exactly one entry per assignment, in assignment order;
existing entries survive; and every assignment's final entry is its own
dispatch outcome. -/
theorem coordinate_foldl_spec (dispatch : String → String → LLMCall String)
    (l : List Assignment) (res : List (String × String))
    (ws : List (String × WorkerState))
    (hnd : (l.map Assignment.worker_id).Nodup)
    (hfresh : ∀ a ∈ l, dget a.worker_id res = none)
    (hws : notBusy ws) :
    ((l.foldl (coordinate_step dispatch) (res, ws)).1.map Prod.fst =
        res.map Prod.fst ++ l.map Assignment.worker_id)
    ∧ (∀ k v, dget k res = some v →
        dget k (l.foldl (coordinate_step dispatch) (res, ws)).1 = some v)
    ∧ (∀ a ∈ l,
        dget a.worker_id (l.foldl (coordinate_step dispatch) (res, ws)).1 =
          some (dispatch_outcome dispatch a)) := by
  induction l generalizing res ws with
  | nil =>
      refine ⟨by simp, fun k v h => h, ?_⟩
      intro a ha
      exact absurd ha (List.not_mem_nil a)
  | cons a t ih =>
      have hfa : dget a.worker_id res = none :=
        hfresh a (List.mem_cons_self a t)
      have hstep := coordinate_step_eq dispatch res ws a (notBusy_dget hws _)
      rw [List.map_cons] at hnd
      have hnd2 := List.nodup_cons.mp hnd
      have hnd' : (t.map Assignment.worker_id).Nodup := hnd2.2
      have hane : ∀ b ∈ t, b.worker_id ≠ a.worker_id := by
        intro b hb hcontra
        exact hnd2.1 (hcontra ▸ List.mem_map_of_mem Assignment.worker_id hb)
      set out := dispatch_outcome dispatch a with hout
      have hres' : (coordinate_step dispatch (res, ws) a).1 =
          dinsert a.worker_id out res := by rw [hstep]
      have hws' : notBusy (coordinate_step dispatch (res, ws) a).2 :=
        coordinate_step_notBusy dispatch a hws
      have hfresh' : ∀ b ∈ t,
          dget b.worker_id (coordinate_step dispatch (res, ws) a).1 = none := by
        intro b hb
        rw [hres', dget_dinsert_ne _ _ _ _ (hane b hb)]
        exact hfresh b (List.mem_cons_of_mem a hb)
      rw [List.foldl_cons]
      obtain ⟨ihkeys, ihpres, ihvals⟩ :=
        ih (coordinate_step dispatch (res, ws) a).1
          (coordinate_step dispatch (res, ws) a).2 hnd' hfresh' hws'
      rw [Prod.mk.eta] at ihkeys ihpres ihvals
      refine ⟨?_, ?_, ?_⟩
      · rw [ihkeys, hres', keys_dinsert_fresh _ _ _ hfa]
        simp
      · intro k v hkv
        have hkne : k ≠ a.worker_id := by
          intro hcontra
          rw [hcontra, hfa] at hkv
          exact Option.noConfusion hkv
        refine ihpres k v ?_
        rw [hres', dget_dinsert_ne _ _ _ _ hkne]
        exact hkv
      · intro b hb
        rcases List.mem_cons.mp hb with rfl | hbt
        · refine ihpres b.worker_id out ?_
          rw [hres']
          exact dget_dinsert_self _ _ _
        · exact ihvals b hbt

/-! ## Workflow node lemmas -/

theorem strTruthy_none : strTruthy none = false := rfl

/-- An error message with a non-empty fixed prefix is truthy. -/
theorem strTruthy_append (a e : String) (ha : a.length ≠ 0) :
    strTruthy (some (a ++ e)) = true := by
  simp only [strTruthy, ne_eq, decide_eq_true_eq]
  intro hc
  have hlen := congrArg String.length hc
  rw [String.length_append] at hlen
  have hz : ("" : String).length = 0 := rfl
  rw [hz] at hlen
  omega

theorem analysis_node_exc (o : Oracles) (s0 : SystemState) (e : String)
    (h : o.analysisNodeExc = some e) :
    supervisor_analysis_node o s0 =
      { s0 with error_message := some ("Error in supervisor analysis: " ++ e) } := by
  unfold supervisor_analysis_node
  rw [h]

theorem analysis_node_fields (o : Oracles) (s0 : SystemState)
    (h : o.analysisNodeExc = none) :
    (supervisor_analysis_node o s0).worker_states = s0.worker_states
    ∧ (supervisor_analysis_node o s0).error_message = s0.error_message
    ∧ (supervisor_analysis_node o s0).final_response = s0.final_response
    ∧ (supervisor_analysis_node o s0).current_phase =
        (if (analyze_user_query o.analysisCall).has_sufficient_info
         then "processing" else "gathering_info")
    ∧ (supervisor_analysis_node o s0).supervisor_memory.context_gathered =
        dinsert "last_analysis"
          (.analysis (analyze_user_query o.analysisCall))
          (dinsert "last_user_input" (.str (s0.user_query.getD ""))
            s0.supervisor_memory.context_gathered) := by
  refine ⟨?_, ?_, ?_, ?_, ?_⟩ <;>
    simp [supervisor_analysis_node, h, update_memory,
      SupervisorMemory.update_context, SupervisorMemory.add_message]

theorem analysis_node_lastAnalysis (o : Oracles) (s0 : SystemState)
    (h : o.analysisNodeExc = none) :
    lastAnalysis (supervisor_analysis_node o s0) =
      analyze_user_query o.analysisCall := by
  unfold lastAnalysis
  rw [(analysis_node_fields o s0 h).2.2.2.2, dget_dinsert_self]

theorem gather_node_fields (o : Oracles) (s : SystemState) :
    (gather_info_node o s).current_phase = s.current_phase
    ∧ (gather_info_node o s).worker_states = s.worker_states
    ∧ (gather_info_node o s).final_response = s.final_response
    ∧ (gather_info_node o s).user_query = s.user_query := by
  unfold gather_info_node
  cases o.gatherNodeExc with
  | some e => exact ⟨rfl, rfl, rfl, rfl⟩
  | none =>
      by_cases hmi : (lastAnalysis s).missing_information = []
      · simp [hmi]
      · refine ⟨?_, ?_, ?_, ?_⟩ <;>
          simp [hmi, update_memory, SupervisorMemory.update_context,
            SupervisorMemory.add_message]

theorem gather_node_error (o : Oracles) (s : SystemState) :
    (gather_info_node o s).error_message =
      (match o.gatherNodeExc with
       | some e => some ("Error in gathering info: " ++ e)
       | none => s.error_message) := by
  unfold gather_info_node
  cases o.gatherNodeExc with
  | some e => rfl
  | none =>
      by_cases hmi : (lastAnalysis s).missing_information = []
      · simp [hmi]
      · simp [hmi, update_memory, SupervisorMemory.update_context,
          SupervisorMemory.add_message]

theorem gather_node_dget (o : Oracles) (s : SystemState) (k : String)
    (hk : k ≠ "follow_up_questions") :
    dget k (gather_info_node o s).supervisor_memory.context_gathered =
      dget k s.supervisor_memory.context_gathered := by
  unfold gather_info_node
  cases o.gatherNodeExc with
  | some e => rfl
  | none =>
      by_cases hmi : (lastAnalysis s).missing_information = []
      · simp [hmi]
      · rw [if_neg hmi]
        simp only [update_memory, SupervisorMemory.update_context,
          SupervisorMemory.add_message]
        rw [dget_dinsert_ne _ _ _ _ hk]

theorem execute_node_exc (o : Oracles) (s : SystemState) (e : String)
    (h : o.executeNodeExc = some e) :
    execute_workers_node o s =
      { s with error_message := some ("Error in executing workers: " ++ e) } := by
  unfold execute_workers_node
  rw [h]

theorem execute_node_none (o : Oracles) (s : SystemState)
    (h : o.executeNodeExc = none) :
    (execute_workers_node o s).current_phase = "completed"
    ∧ (execute_workers_node o s).worker_states =
        (coordinate_workers o.dispatchCall (create_execution_plan o.planCall)
          s.worker_states).2
    ∧ (execute_workers_node o s).supervisor_memory.context_gathered =
        dinsert "worker_results"
          (.results (coordinate_workers o.dispatchCall
            (create_execution_plan o.planCall) s.worker_states).1)
          (dinsert "execution_plan"
            (.plan (create_execution_plan o.planCall))
            s.supervisor_memory.context_gathered)
    ∧ (execute_workers_node o s).error_message = s.error_message
    ∧ (execute_workers_node o s).final_response = s.final_response := by
  refine ⟨?_, ?_, ?_, ?_, ?_⟩ <;>
    simp [execute_workers_node, h, SupervisorMemory.update_context]

theorem stored_results_execute (o : Oracles) (s : SystemState)
    (h : o.executeNodeExc = none) :
    storedWorkerResults (execute_workers_node o s) =
      (coordinate_workers o.dispatchCall (create_execution_plan o.planCall)
        s.worker_states).1 := by
  unfold storedWorkerResults
  rw [(execute_node_none o s h).2.2.1, dget_dinsert_self]

theorem synthesize_node_exc (o : Oracles) (s : SystemState) (e : String)
    (h : o.synthesizeNodeExc = some e) :
    synthesize_results_node o s =
      { s with error_message := some ("Error in synthesizing results: " ++ e) } := by
  unfold synthesize_results_node
  rw [h]

theorem synthesize_node_empty (o : Oracles) (s : SystemState)
    (h : o.synthesizeNodeExc = none) (hz : storedWorkerResults s = []) :
    synthesize_results_node o s = s := by
  unfold synthesize_results_node
  rw [h]
  simp [hz]

theorem synthesize_node_none (o : Oracles) (s : SystemState)
    (h : o.synthesizeNodeExc = none) (hnz : storedWorkerResults s ≠ []) :
    (synthesize_results_node o s).final_response =
      some (synthesize_results o.synthesisCall)
    ∧ (synthesize_results_node o s).current_phase = s.current_phase
    ∧ (synthesize_results_node o s).worker_states = s.worker_states
    ∧ (synthesize_results_node o s).supervisor_memory.context_gathered =
        s.supervisor_memory.context_gathered
    ∧ (synthesize_results_node o s).error_message = s.error_message := by
  unfold synthesize_results_node
  rw [h]
  rw [if_neg hnz]
  refine ⟨?_, ?_, ?_, ?_, ?_⟩ <;>
    simp [update_memory, SupervisorMemory.add_message]

/-! ## Further node and run lemmas -/

theorem synthesize_node_ws (o : Oracles) (s : SystemState) :
    (synthesize_results_node o s).worker_states = s.worker_states := by
  unfold synthesize_results_node
  cases o.synthesizeNodeExc with
  | some e => rfl
  | none =>
      by_cases hz : storedWorkerResults s = []
      · simp [hz]
      · simp [hz, update_memory, SupervisorMemory.add_message]

theorem synthesize_node_phase (o : Oracles) (s : SystemState) :
    (synthesize_results_node o s).current_phase = s.current_phase := by
  unfold synthesize_results_node
  cases o.synthesizeNodeExc with
  | some e => rfl
  | none =>
      by_cases hz : storedWorkerResults s = []
      · simp [hz]
      · simp [hz, update_memory, SupervisorMemory.add_message]

theorem synthesize_node_error (o : Oracles) (s : SystemState) :
    (synthesize_results_node o s).error_message =
      (match o.synthesizeNodeExc with
       | some e => some ("Error in synthesizing results: " ++ e)
       | none => s.error_message) := by
  unfold synthesize_results_node
  cases o.synthesizeNodeExc with
  | some e => rfl
  | none =>
      by_cases hz : storedWorkerResults s = []
      · simp [hz]
      · simp [hz, update_memory, SupervisorMemory.add_message]

theorem execute_node_error (o : Oracles) (s : SystemState) :
    (execute_workers_node o s).error_message =
      (match o.executeNodeExc with
       | some e => some ("Error in executing workers: " ++ e)
       | none => s.error_message) := by
  unfold execute_workers_node
  cases o.executeNodeExc with
  | some e => rfl
  | none => simp [SupervisorMemory.update_context]

theorem filter_busy_nil {ws : List (String × WorkerState)} (h : notBusy ws) :
    ws.filter (fun p => p.2.is_busy) = [] := by
  rw [List.filter_eq_nil_iff]
  intro p hp
  simp [h p hp]

/-! ## Claim C1 -/

/-- C1 (code bug): the specified workflow can never run.  `workflow.py`
does not import `WorkerState`, yet `process_query` constructs one per
registered worker (line 178) before invoking the graph, so every call
raises `NameError` and returns the `except` arm's two-key error dict:
no run ever starts, no result ever has `current_phase = "completed"`,
and no result carries `final_response` or `worker_results` at all. -/
theorem run_never_completes (q : String) :
    process_query q =
      [("status", .str "error"),
       ("error", .str "Workflow execution error: name 'WorkerState' is not defined")]
    ∧ dget "current_phase" (process_query q) = none
    ∧ dget "final_response" (process_query q) = none
    ∧ dget "worker_results" (process_query q) = none :=
  ⟨rfl, rfl, rfl, rfl⟩

/-! ## Claim C4 -/

/-- C4 (code bug): the routing predicate itself decides exactly as the
claim states — `"end"` on a truthy error message, otherwise worker
execution or information gathering by `has_sufficient_info` — but it is
never exercised: every `process_query` call raises `NameError` at
`workflow.py` line 178 before the graph is invoked, so no result ever
reflects a routed phase. -/
theorem routing_decided_but_never_run :
    (∀ s : SystemState, strTruthy s.error_message = true →
      route_after_analysis s = "end")
    ∧ (∀ s : SystemState, s.error_message = none →
        route_after_analysis s =
          (if (lastAnalysis s).has_sufficient_info = true
           then "execute_workers" else "gather_info"))
    ∧ (∀ q : String, dget "current_phase" (process_query q) = none) := by
  refine ⟨?_, ?_, fun q => rfl⟩
  · intro s h
    unfold route_after_analysis
    rw [if_pos h]
  · intro s h
    unfold route_after_analysis
    rw [h]
    simp [strTruthy]

/-- C4 witness: the routing predicate evaluated on a state with an
error message, and on states whose stored analysis reports sufficient
and insufficient information. -/
theorem routing_decided_but_never_run_witness :
    route_after_analysis stateWithError = "end"
    ∧ route_after_analysis stateAnaTrue =
        (if (lastAnalysis stateAnaTrue).has_sufficient_info = true
         then "execute_workers" else "gather_info")
    ∧ route_after_analysis stateAnaFalse =
        (if (lastAnalysis stateAnaFalse).has_sufficient_info = true
         then "execute_workers" else "gather_info") :=
  ⟨routing_decided_but_never_run.1 stateWithError (by decide),
   routing_decided_but_never_run.2.1 stateAnaTrue rfl,
   routing_decided_but_never_run.2.1 stateAnaFalse rfl⟩

/-! ## Claim C6 -/

/-- C6 (code bug): per-worker failure isolation does hold inside
`coordinate_workers` — over any plan with pairwise-distinct worker ids
and idle workers, each assignment's final results entry is its own
dispatch outcome: the string `"Error executing task: <e>"` for the one
whose dispatch raises, and the normal result for every other
assignment, which therefore still executes, with no raise escaping the
loop (a total function) — but the run can never reach
`current_phase = "completed"`: every `process_query` call raises
`NameError` at `workflow.py` line 178 before any worker is
dispatched. -/
theorem worker_failure_isolated (dispatch : String → String → LLMCall String)
    (plan : ExecutionPlan) (ws : List (String × WorkerState))
    (hnd : (plan.worker_assignments.map Assignment.worker_id).Nodup)
    (hws : notBusy ws) :
    (∀ a ∈ plan.worker_assignments,
      dget a.worker_id (coordinate_workers dispatch plan ws).1 =
        some (dispatch_outcome dispatch a))
    ∧ (∀ q : String, dget "current_phase" (process_query q) = none) :=
  ⟨fun a ha => (coordinate_foldl_spec dispatch plan.worker_assignments [] ws
      hnd (fun a _ => rfl) hws).2.2 a ha,
   fun q => rfl⟩

/-- C6 witness: in the two-worker plan with the research worker's
dispatch raising, its entry is the error string and the creative worker
still records its normal result. -/
theorem worker_failure_isolated_witness :
    dget "research_worker"
      (coordinate_workers dispResearchFail planRC freshWorkerStates).1 =
        some "Error executing task: network down"
    ∧ dget "creative_worker"
      (coordinate_workers dispResearchFail planRC freshWorkerStates).1 =
        some "done creative task" :=
  ⟨(worker_failure_isolated dispResearchFail planRC freshWorkerStates
      (by decide) (by unfold notBusy; decide)).1
    { worker_id := "research_worker", task := "research task", priority := "high", dependencies := [] }
    (by decide),
   (worker_failure_isolated dispResearchFail planRC freshWorkerStates
      (by decide) (by unfold notBusy; decide)).1
    { worker_id := "creative_worker", task := "creative task", priority := "medium", dependencies := ["research_worker"] }
    (by decide)⟩

/-! ## Claim C8 -/

/-- C8 (code bug): `status` is `"error"` on every call, with the
`NameError` text — a failure that is neither an `error_message` on the
run-state nor a raise of the graph invocation (which is never reached)
— so no recoverable-failure path can ever yield `status = "success"`
and the claimed equivalence is false of the program. -/
theorem status_always_error (q : String) :
    dget "status" (process_query q) = some (.str "error")
    ∧ dget "error" (process_query q) =
        some (.str "Workflow execution error: name 'WorkerState' is not defined")
    ∧ ¬ dget "status" (process_query q) = some (.str "success") :=
  ⟨rfl, rfl, by simp [process_query, dget]⟩

/-! ## Claim C9 -/

/-- C9 (code bug): every result is the `except` arm's two-key dict
(`status`, `error`), so `current_phase`, `supervisor_memory_size` and
`active_workers` appear in no result at all — the response builder that
would add them (`workflow.py` lines 183-206) is dead code behind the
`NameError` at line 178. -/
theorem response_missing_keys (q : String) :
    (process_query q).map Prod.fst = ["status", "error"]
    ∧ dget "current_phase" (process_query q) = none
    ∧ dget "supervisor_memory_size" (process_query q) = none
    ∧ dget "active_workers" (process_query q) = none :=
  ⟨rfl, rfl, rfl, rfl⟩

/-! ## Claim C10 -/

/-- C10 (code bug): no operation ever sets `is_busy := true` — starting
from idle workers the coordination loop keeps every worker state idle
and equals its busy-check-free variant, so the "worker is busy" branch
is unreachable — but `active_workers` is never 0 in any
query-submission result: the key is absent from every response, because
`process_query` never constructs a `WorkerState` at all (`NameError` at
`workflow.py` line 178) and always returns the `except` arm's two-key
dict. -/
theorem workers_never_busy (dispatch : String → String → LLMCall String)
    (plan : ExecutionPlan) (ws : List (String × WorkerState))
    (hws : notBusy ws) :
    notBusy (coordinate_workers dispatch plan ws).2
    ∧ coordinate_workers dispatch plan ws =
        coordinate_workers_unchecked dispatch plan ws
    ∧ (∀ q : String, dget "active_workers" (process_query q) = none) :=
  ⟨coordinate_foldl_notBusy dispatch plan.worker_assignments [] ws hws,
   coordinate_foldl_unchecked dispatch plan.worker_assignments [] ws hws,
   fun q => rfl⟩

/-- C10 witness: the coordination loop on the fresh two-worker states
leaves every worker idle and equals the busy-check-free variant. -/
theorem workers_never_busy_witness :
    notBusy (coordinate_workers dispResearchFail planRC freshWorkerStates).2
    ∧ coordinate_workers dispResearchFail planRC freshWorkerStates =
        coordinate_workers_unchecked dispResearchFail planRC
          freshWorkerStates :=
  ⟨(workers_never_busy dispResearchFail planRC freshWorkerStates
      (by unfold notBusy; decide)).1,
   (workers_never_busy dispResearchFail planRC freshWorkerStates
      (by unfold notBusy; decide)).2.1⟩

end Assistant
